import Mathlib

/-!
Shallow embedding, in Lean 4, of the AWS automation scripts of this
repository (Lambda handlers for auto-remediation, cost optimization,
compliance monitoring, security response, a serverless contact-form
backend, and data-pipeline functions), together with theorems settling
the specification claims about them.

Conventions of the embedding:
* Python dictionaries with a known set of keys become structures whose
  fields are `Option`-valued when the key may be absent.
* Raising and catching exceptions becomes `Except PyErr`.
* Calls to AWS SDK write APIs are recorded in an explicit effect trace
  (a `List` of effect values); read-only SDK calls are modelled as
  lookups in an explicit environment record that carries the data the
  service would return.  A call that raises contributes no effect.
* Python floats become rationals (`ℚ`); the numeric code here only
  adds, divides and compares, which is exact.
-/

set_option autoImplicit false

namespace Py

/-- Python exception values, as far as the embedded code distinguishes them. -/
inductive PyErr where
  /-- NameError: a name that is not bound in the module, e.g. a module never imported. -/
  | nameError (n : String)
  /-- KeyError: subscripting a dict with an absent key. -/
  | keyError (k : String)
  /-- ValueError with a message. -/
  | valueError (msg : String)
  /-- botocore ClientError raised by an SDK call. -/
  | clientError (msg : String)
  /-- any other exception. -/
  | otherError (msg : String)
  deriving Repr, DecidableEq

/-- Helper for the substring test: does `needle` occur in `hay` as a
contiguous sublist? -/
def listContains (needle : List Char) : List Char → Bool
  | [] => needle.isEmpty
  | c :: rest => needle.isPrefixOf (c :: rest) || listContains needle rest

/-- Python `needle in haystack` on strings: substring test. -/
def strContains (haystack needle : String) : Bool :=
  listContains needle.toList haystack.toList

/-- Python `s.isdigit()` restricted to ASCII text: true iff `s` is nonempty
and every character is a decimal digit. -/
def isdigit (s : String) : Bool :=
  !s.isEmpty && s.toList.all Char.isDigit

/-- Python truthiness of an optional string: `None` and the empty string are falsy. -/
def truthy : Option String → Bool
  | none => false
  | some s => !s.isEmpty

/-- Python `s.lower()` (character by character, as in ASCII text). -/
def lower (s : String) : String :=
  String.mk (s.toList.map Char.toLower)

/-- Replace every occurrence of the character `pat` by `repl`. -/
def replaceChar (pat : Char) (repl : List Char) : List Char → List Char
  | [] => []
  | c :: rest =>
    if c = pat then repl ++ replaceChar pat repl rest
    else c :: replaceChar pat repl rest

/-- Python `s.replace(pat, repl)` for a one-character pattern. -/
def pyReplace (s : String) (pat : Char) (repl : String) : String :=
  String.mk (replaceChar pat repl.toList s.toList)

end Py

open Py

/-! ## project3-monitoring-security / cost_optimizer.py

The module never imports `os`, yet `handler` evaluates
`os.environ.get('SNS_TOPIC_ARN')` as the first statement of its `try`
block, so every invocation raises `NameError` there and falls into the
catch-all `except`.  The pure classification helper `is_instance_idle`
is embedded in full.
-/

namespace CostOptimizer3

/-- Result of the CloudWatch `get_metric_statistics` call made by
`is_instance_idle`: either the list of hourly `Average` CPU datapoints, or
an exception raised by the call. -/
abbrev MetricResult := Except PyErr (List ℚ)

/-- is_instance_idle: returns False when the metric call raises or returns
no datapoints; otherwise computes the arithmetic mean of the `Average`
values and returns whether it is strictly below 5.0. -/
def is_instance_idle (datapoints : MetricResult) : Bool :=
  match datapoints with
  | .error _ => false
  | .ok dps =>
    if dps.isEmpty then false
    else
      let total_cpu : ℚ := dps.sum
      let avg_cpu : ℚ := total_cpu / dps.length
      decide (avg_cpu < 5)

/-- Environment for `check_idle_instances`: the running instances returned by
`describe_instances` (or the exception it raised) and, per instance id, the
CPU metric result CloudWatch returns for it. -/
structure IdleEnv where
  running : Except PyErr (List String)
  cpu : String → MetricResult

/-- check_idle_instances: lists the running instances and keeps those that
`is_instance_idle` classifies as idle; any exception yields the empty list. -/
def check_idle_instances (env : IdleEnv) : List String :=
  match env.running with
  | .error _ => []
  | .ok ids => ids.filter (fun id => is_instance_idle (env.cpu id))

/-- Effects the project3 cost-optimizer handler could perform (only the SNS
publication; all other calls in the module are read-only). -/
inductive Effect where
  | snsPublish (topicArn subject : String)
  deriving Repr, DecidableEq

/-- HTTP-style response returned by the handler. -/
structure Response where
  statusCode : Nat
  errorMsg : Option String
  deriving Repr, DecidableEq

/-- os.environ.get in `handler`: the module has no `import os`, so evaluating
the name `os` raises NameError before `environ.get` is ever called. -/
def osEnvironGet : Except PyErr (Option String) :=
  .error (.nameError "os")

/-- handler: the try block begins with `os.environ.get('SNS_TOPIC_ARN')`,
which raises NameError; the rest of the try block (the idle/oversized/volume
checks, cost analysis and notification, abstracted here as the continuation
`rest`) is therefore never reached, and the except branch returns a 500
response.  No effect is performed. -/
def handler (rest : Option String → Response × List Effect) :
    Response × List Effect :=
  match osEnvironGet with
  | .error _e => ({ statusCode := 500, errorMsg := some "name os is not defined" }, [])
  | .ok topic => rest topic

end CostOptimizer3

/-! ## project3-monitoring-security / auto_remediation.py

This module also evaluates `os.environ.get('SNS_TOPIC_ARN')` without an
`os` import; the lookup sits after the alarm fields are parsed, so every
invocation either fails parsing (KeyError) or raises NameError, and the
catch-all except returns a 500 response.  The dispatch chain below the
lookup is embedded in full (it is dead code in the source, reachable only
if the NameError were fixed).
-/

namespace AutoRemediation

/-- The `state` sub-dictionary of the alarm detail. -/
structure AlarmState where
  value : Option String
  reason : Option String

/-- The `detail` dictionary of the CloudWatch alarm event. -/
structure AlarmDetail where
  alarmName : Option String
  state : Option AlarmState

/-- A CloudWatch alarm event as the handler subscripts it. -/
structure Event where
  detail : Option AlarmDetail

/-- Information about an EC2 instance that `describe_instances` returns
(only the state name is inspected). -/
structure Instance where
  stateName : String

/-- Environment: outcomes of the SDK calls the remediation branches make. -/
structure Env where
  describeInstances : String → Except PyErr Instance
  ssmOk : Bool
  rebootOk : Bool
  snsOk : Bool

/-- SDK write calls the module can make. -/
inductive Effect where
  | ssmSendCommand (instanceIds commands : List String)
  | ec2RebootInstances (instanceIds : List String)
  | snsPublish (topicArn subject : String)
  deriving Repr, DecidableEq

/-- Body of the handler response. -/
inductive RespBody where
  | completed (alarm action : String)
  | failed (error : String)
  deriving Repr, DecidableEq

/-- HTTP-style response returned by the handler. -/
structure Response where
  statusCode : Nat
  body : RespBody
  deriving Repr, DecidableEq

/-- Rendering of `str(e)` for the exceptions the embedding distinguishes. -/
def errText : PyErr → String
  | .nameError n => "name " ++ n ++ " is not defined"
  | .keyError k => k
  | .valueError m => m
  | .clientError m => m
  | .otherError m => m

/-- Lowercase hexadecimal digit, the character class `[a-f0-9]`. -/
def isHexLower (c : Char) : Bool :=
  c.isDigit || ('a' ≤ c && c ≤ 'f')

/-- Leftmost-then-longest search for the pattern `i-[a-f0-9]+`, as
`re.search` performs it: try each start position from the left; a match is
the letter i, a dash, then a maximal nonempty run of `[a-f0-9]`. -/
def searchInstanceId : List Char → Option String
  | [] => none
  | c :: rest =>
    match c, rest with
    | 'i', '-' :: d :: rest2 =>
      if isHexLower d then
        some (String.mk ('i' :: '-' :: d :: rest2.takeWhile isHexLower))
      else searchInstanceId rest
    | _, _ => searchInstanceId rest

/-- extract_instance_id: search the alarm name first, then the reason. -/
def extract_instance_id (alarm_name alarm_reason : String) : Option String :=
  match searchInstanceId alarm_name.toList with
  | some m => some m
  | none => searchInstanceId alarm_reason.toList

/-- handle_high_cpu_alarm: on an extractable instance id, describe the
instance (an exception here propagates to the handler) and, when it is
running, try an SSM restart of httpd; the SSM failure is caught locally. -/
def handle_high_cpu_alarm (alarm_name alarm_reason : String) (env : Env) :
    Except PyErr String × List Effect :=
  match extract_instance_id alarm_name alarm_reason with
  | some iid =>
    match env.describeInstances iid with
    | .error e => (.error e, [])
    | .ok inst =>
      if inst.stateName = "running" then
        if env.ssmOk then
          (.ok ("Restarted Apache service on instance " ++ iid),
           [.ssmSendCommand [iid]
              ["sudo systemctl restart httpd", "sudo systemctl status httpd"]])
        else
          (.ok ("Failed to restart service on instance " ++ iid), [])
      else
        (.ok "High CPU alarm processed - manual intervention may be required", [])
  | none =>
    (.ok "High CPU alarm processed - manual intervention may be required", [])

/-- handle_high_memory_alarm: on an extractable instance id, try an SSM
cache clear; the SSM failure is caught locally. -/
def handle_high_memory_alarm (alarm_name alarm_reason : String) (env : Env) :
    Except PyErr String × List Effect :=
  match extract_instance_id alarm_name alarm_reason with
  | some iid =>
    if env.ssmOk then
      (.ok ("Cleared system cache on instance " ++ iid),
       [.ssmSendCommand [iid]
          ["sudo sync", "sudo echo 3 > /proc/sys/vm/drop_caches", "free -h"]])
    else
      (.ok ("Failed to clear cache on instance " ++ iid), [])
  | none =>
    (.ok "High memory alarm processed - manual intervention may be required", [])

/-- handle_disk_space_alarm: on an extractable instance id, try an SSM
cleanup of logs and temp files; the SSM failure is caught locally. -/
def handle_disk_space_alarm (alarm_name alarm_reason : String) (env : Env) :
    Except PyErr String × List Effect :=
  match extract_instance_id alarm_name alarm_reason with
  | some iid =>
    if env.ssmOk then
      (.ok ("Cleaned up disk space on instance " ++ iid),
       [.ssmSendCommand [iid]
          ["sudo find /var/log -name \x22*.log\x22 -type f -mtime +7 -delete",
           "sudo find /tmp -type f -mtime +1 -delete",
           "sudo yum clean all", "df -h"]])
    else
      (.ok ("Failed to clean disk on instance " ++ iid), [])
  | none =>
    (.ok "Disk space alarm processed - manual intervention may be required", [])

/-- handle_instance_status_alarm: on an extractable instance id, try an EC2
reboot of the instance; the reboot failure is caught locally. -/
def handle_instance_status_alarm (alarm_name alarm_reason : String) (env : Env) :
    Except PyErr String × List Effect :=
  match extract_instance_id alarm_name alarm_reason with
  | some iid =>
    if env.rebootOk then
      (.ok ("Rebooted instance " ++ iid), [.ec2RebootInstances [iid]])
    else
      (.ok ("Failed to reboot instance " ++ iid), [])
  | none =>
    (.ok "Instance status alarm processed - manual intervention may be required", [])

/-- handle_generic_alarm. -/
def handle_generic_alarm (alarm_name _alarm_reason : String) :
    Except PyErr String × List Effect :=
  (.ok ("Generic alarm processed: " ++ alarm_name), [])

/-- The if/elif dispatch on case-insensitive substrings of the alarm name. -/
def dispatchAlarm (alarm_name alarm_reason : String) (env : Env) :
    Except PyErr String × List Effect :=
  if strContains (lower alarm_name) "high-cpu" then
    handle_high_cpu_alarm alarm_name alarm_reason env
  else if strContains (lower alarm_name) "high-memory" then
    handle_high_memory_alarm alarm_name alarm_reason env
  else if strContains (lower alarm_name) "disk-space" then
    handle_disk_space_alarm alarm_name alarm_reason env
  else if strContains (lower alarm_name) "instance-status" then
    handle_instance_status_alarm alarm_name alarm_reason env
  else
    handle_generic_alarm alarm_name alarm_reason

/-- os.environ.get in `handler`: the module has no `import os`, so evaluating
the name `os` raises NameError. -/
def osEnvironGet : Except PyErr (Option String) :=
  .error (.nameError "os")

/-- The try block of `handler`: parse the alarm fields (subscripting can
raise KeyError), evaluate `os.environ.get` (always raises NameError), then —
in code that is consequently unreachable — dispatch the remediation and send
the notification. -/
def tryBody (event : Event) (env : Env) :
    Except PyErr Response × List Effect :=
  match event.detail with
  | none => (.error (.keyError "detail"), [])
  | some detail =>
    match detail.alarmName with
    | none => (.error (.keyError "alarmName"), [])
    | some alarm_name =>
      match detail.state with
      | none => (.error (.keyError "state"), [])
      | some st =>
        match st.value, st.reason with
        | none, _ => (.error (.keyError "value"), [])
        | some _, none => (.error (.keyError "reason"), [])
        | some _alarm_state, some alarm_reason =>
          match osEnvironGet with
          | .error e => (.error e, [])
          | .ok sns_topic_arn =>
            match dispatchAlarm alarm_name alarm_reason env with
            | (.error e, effs) => (.error e, effs)
            | (.ok result, effs) =>
              let notif : List Effect :=
                match sns_topic_arn with
                | some topic =>
                  if env.snsOk then
                    [.snsPublish topic ("Auto-Remediation: " ++ alarm_name)]
                  else []
                | none => []
              (.ok { statusCode := 200, body := .completed alarm_name result },
               effs ++ notif)

/-- handler: run the try block; any exception is caught and turned into a
500 response. -/
def handler (event : Event) (env : Env) : Response × List Effect :=
  match tryBody event env with
  | (.ok r, effs) => (r, effs)
  | (.error e, effs) => ({ statusCode := 500, body := .failed (errText e) }, effs)

end AutoRemediation

/-! ## monitoringSecurity / security_response.py

The module never imports `os`, and the very first statement of the try
block of `handler` is `os.environ.get('SECURITY_SNS_TOPIC_ARN')`; every
invocation therefore raises NameError there and returns the 500 response
with no SDK call made.  All code after that statement (the GuardDuty /
Security Hub dispatch and the notification) is unreachable and is
abstracted here as the continuation `rest`.
-/

namespace SecurityResponse

/-- SDK write calls the module can make (none is ever reached). -/
inductive Effect where
  | ec2ModifyInstanceAttribute (instanceId : String) (groups : List String)
  | ec2CreateSecurityGroup (vpcId : String)
  | guarddutyArchiveFindings (findingIds : List String)
  | snsPublish (topicArn subject : String)
  deriving Repr, DecidableEq

/-- HTTP-style response returned by the handler. -/
structure Response where
  statusCode : Nat
  errorMsg : Option String
  deriving Repr, DecidableEq

/-- os.environ.get in `handler`: the module has no `import os`, so evaluating
the name `os` raises NameError. -/
def osEnvironGet : Except PyErr (Option String) :=
  .error (.nameError "os")

/-- handler: the first statement of the try block raises NameError, so the
rest of the try block (abstracted as `rest`, which receives the event and
the topic ARN the lookup would have produced) never runs, and the except
branch returns a 500 response with no effect performed. -/
def handler {Ev : Type} (event : Ev)
    (rest : Ev → Option String → Response × List Effect) :
    Response × List Effect :=
  match osEnvironGet with
  | .error _e => ({ statusCode := 500, errorMsg := some "name os is not defined" }, [])
  | .ok topic => rest event topic

end SecurityResponse

/-! ## monitoringSecurity / compliance_monitor.py

Same missing-import slip: `os.environ.get('COMPLIANCE_SNS_TOPIC_ARN')` is
the first statement of the try block and the module has no `import os`, so
every invocation returns a 500 response with no SDK call made.  The
security-group remediation that the (unreachable) dispatch would perform is
embedded in full below.
-/

namespace ComplianceMonitor

/-- An entry of `IpPermissions` of a security group: the rule dictionary,
of which the handler inspects the `IpRanges` CIDR values (the rule as a
whole is what gets passed back to `revoke_security_group_ingress`). -/
structure IpPermission where
  ipRanges : List String
  deriving Repr, DecidableEq

/-- A security group as `describe_security_groups` returns it. -/
structure SecurityGroup where
  ipPermissions : List IpPermission

/-- Environment: outcomes of the EC2 calls. -/
structure Env where
  describeSecurityGroups : String → Except PyErr SecurityGroup
  revokeOk : Bool

/-- SDK write calls the module can make. -/
inductive Effect where
  | revokeSecurityGroupIngress (groupId : String) (rule : IpPermission)
  | snsPublish (topicArn subject : String)
  deriving Repr, DecidableEq

/-- HTTP-style response returned by the handler. -/
structure Response where
  statusCode : Nat
  errorMsg : Option String
  deriving Repr, DecidableEq

/-- Inner double loop of handle_security_group_violation: for every rule
and every CIDR range 0.0.0.0/0 inside it, revoke the whole rule; a revoke
failure is caught and logged, recording no action. -/
def revokeOpenRules (env : Env) (groupId : String) (rules : List IpPermission) :
    List String × List Effect :=
  rules.foldl
    (fun acc rule =>
      rule.ipRanges.foldl
        (fun acc2 cidr =>
          if cidr = "0.0.0.0/0" then
            if env.revokeOk then
              (acc2.1 ++ ["Removed overly permissive rule: " ++ cidr],
               acc2.2 ++ [.revokeSecurityGroupIngress groupId rule])
            else acc2
          else acc2)
        acc)
    ([], [])

/-- handle_security_group_violation: describe the group, revoke every
ingress rule that carries the CIDR 0.0.0.0/0, and report what was done;
any exception of the describe call is caught and reported as a failure. -/
def handle_security_group_violation (resource_id : String) (env : Env) :
    String × List Effect :=
  match env.describeSecurityGroups resource_id with
  | .error e =>
    ("Failed to remediate security group " ++ resource_id ++ ": " ++
       AutoRemediation.errText e, [])
  | .ok sg =>
    let (actions, effs) := revokeOpenRules env resource_id sg.ipPermissions
    if actions.isEmpty then
      ("Security group " ++ resource_id ++
         " violation analyzed - manual review required", effs)
    else
      ("Security group " ++ resource_id ++ " remediated: " ++
         String.intercalate "; " actions, effs)

/-- os.environ.get in `handler`: the module has no `import os`, so evaluating
the name `os` raises NameError. -/
def osEnvironGet : Except PyErr (Option String) :=
  .error (.nameError "os")

/-- handler: the first statement of the try block raises NameError, so the
rest of the try block (event parsing, the NON_COMPLIANT dispatch that would
reach handle_security_group_violation, and the notification — abstracted as
`rest`) never runs, and the except branch returns a 500 response with no
effect performed. -/
def handler {Ev : Type} (event : Ev)
    (rest : Ev → Option String → Response × List Effect) :
    Response × List Effect :=
  match osEnvironGet with
  | .error _e => ({ statusCode := 500, errorMsg := some "name os is not defined" }, [])
  | .ok topic => rest event topic

end ComplianceMonitor

/-! ## project4-serverless-contact / lambda / contact_handler.py

The contact-form backend: validate the submission, store one item in
DynamoDB, publish one SNS notification.  `json.loads` of a string body is
modelled by its outcome, an `Except PyErr FormData`; the fresh
`str(uuid.uuid4())` and the `datetime.utcnow().isoformat()` timestamp are
passed in as the strings they produce.
-/

namespace ContactHandler

/-- The parsed request body; each key may be absent. -/
structure FormData where
  name : Option String
  email : Option String
  subject : Option String
  message : Option String
  phone : Option String
  priority : Option String

/-- Result of validate_form_data. -/
structure ValidationResult where
  valid : Bool
  errors : List String
  deriving Repr, DecidableEq

/-- The item stored in the contact-submissions DynamoDB table. -/
structure ContactItem where
  submission_id : String
  name : String
  email : String
  phone : String
  subject : String
  message : String
  priority : String
  status : String
  created_at : String
  updated_at : String
  deriving Repr, DecidableEq

/-- Environment: outcomes of the two SDK calls. -/
structure Env where
  dbOk : Bool
  snsOk : Bool

/-- SDK write calls the module can make. -/
inductive Effect where
  | dynamoPutItem (table : String) (item : ContactItem)
  | snsPublish (topicArn subject : String)
  deriving Repr, DecidableEq

/-- Body of the handler response. -/
inductive RespBody where
  | success (submission_id timestamp : String)
  | validationFailed (errors : List String)
  | serverError
  deriving Repr, DecidableEq

/-- HTTP-style response returned through create_response. -/
structure Response where
  statusCode : Nat
  body : RespBody
  deriving Repr, DecidableEq

/-- The module-level constant SNS_TOPIC_ARN. -/
def SNS_TOPIC_ARN : String := "arn:aws:sns:us-east-1:123456789012:contact-notifications"

/-- The module-level constant CONTACT_TABLE. -/
def CONTACT_TABLE : String := "contact-submissions"

/-- phone.replace(dash, empty).replace(lparen, empty).replace(rparen, empty).replace(space, empty). -/
def stripPhone (phone : String) : String :=
  pyReplace (pyReplace (pyReplace (pyReplace phone '-' "") '(' "") ')' "") ' ' ""

/-- validate_form_data: collect the error messages in source order —
required-field checks for name, email, subject and message, then the email
at-sign check, the message length check, and the phone digits check (each
of the last three only when the field is nonempty). -/
def validate_form_data (data : FormData) : ValidationResult :=
  let errors : List String :=
    (if !truthy data.name then ["name is required"] else []) ++
    (if !truthy data.email then ["email is required"] else []) ++
    (if !truthy data.subject then ["subject is required"] else []) ++
    (if !truthy data.message then ["message is required"] else []) ++
    (if !(data.email.getD "").isEmpty && !strContains (data.email.getD "") "@" then
       ["Invalid email format"] else []) ++
    (if !(data.message.getD "").isEmpty && (data.message.getD "").length < 10 then
       ["Message must be at least 10 characters long"] else []) ++
    (if !(data.phone.getD "").isEmpty && !isdigit (stripPhone (data.phone.getD "")) then
       ["Invalid phone number format"] else [])
  { valid := errors.isEmpty, errors := errors }

/-- process_contact_submission: build the item (subscripting raises KeyError
on an absent required key) and put it into DynamoDB; a ClientError of the
put is re-raised as a generic exception. -/
def process_contact_submission (data : FormData) (uuid now : String) (env : Env) :
    Except PyErr String × List Effect :=
  match data.name with
  | none => (.error (.keyError "name"), [])
  | some nm =>
    match data.email with
    | none => (.error (.keyError "email"), [])
    | some em =>
      match data.subject with
      | none => (.error (.keyError "subject"), [])
      | some su =>
        match data.message with
        | none => (.error (.keyError "message"), [])
        | some me =>
          let item : ContactItem :=
            { submission_id := uuid, name := nm, email := em,
              phone := data.phone.getD "", subject := su, message := me,
              priority := data.priority.getD "medium", status := "new",
              created_at := now, updated_at := now }
          if env.dbOk then
            (.ok uuid, [.dynamoPutItem CONTACT_TABLE item])
          else
            (.error (.otherError "Failed to store contact submission"), [])

/-- send_notification_email: publish one SNS message; every exception
(building the message from an absent key, or the publish itself) is caught
and swallowed, so this function never raises. -/
def send_notification_email (data : FormData) (_submission_id : String) (env : Env) :
    List Effect :=
  match data.name, data.email, data.subject, data.message with
  | some _, some _, some su, some _ =>
    if env.snsOk then
      [.snsPublish SNS_TOPIC_ARN ("New Contact Form Submission - " ++ su)]
    else []
  | _, _, _, _ => []

/-- lambda_handler: parse the body, validate, store, notify; any uncaught
exception yields the 500 response. -/
def lambda_handler (body : Except PyErr FormData) (env : Env) (uuid now : String) :
    Response × List Effect :=
  match body with
  | .error _e => ({ statusCode := 500, body := .serverError }, [])
  | .ok data =>
    let v := validate_form_data data
    if !v.valid then
      ({ statusCode := 400, body := .validationFailed v.errors }, [])
    else
      match process_contact_submission data uuid now env with
      | (.error _e, effs) => ({ statusCode := 500, body := .serverError }, effs)
      | (.ok submission_id, effs) =>
        let notif := send_notification_email data submission_id env
        ({ statusCode := 200, body := .success submission_id now }, effs ++ notif)

/-- Claim-side predicate (from the words of claim C3): the submission is
rejected iff a required field is missing or empty, the email lacks an
at-sign, the message is shorter than 10 characters, or a provided phone
contains a non-digit character other than dashes, parentheses and spaces. -/
def claimRejects (data : FormData) : Bool :=
  !truthy data.name || !truthy data.email || !truthy data.subject ||
  !truthy data.message ||
  !strContains (data.email.getD "") "@" ||
  (data.message.getD "").length < 10 ||
  (truthy data.phone &&
    (data.phone.getD "").toList.any
      (fun c => !c.isDigit && !(['-', '(', ')', ' '].contains c)))

/-- Claim-side predicate for the amended claim: as claimRejects, except that
the phone condition matches the code — a provided phone is rejected when
stripping dashes, parentheses and spaces does not leave a nonempty string
of digits. -/
def claimRejectsAmended (data : FormData) : Bool :=
  !truthy data.name || !truthy data.email || !truthy data.subject ||
  !truthy data.message ||
  !strContains (data.email.getD "") "@" ||
  (data.message.getD "").length < 10 ||
  (truthy data.phone && !isdigit (stripPhone (data.phone.getD "")))

end ContactHandler

/-! ## project6-data-analytics-ml / lambda_functions / data_processor.py

Per Kinesis record: base64+JSON decode (modelled by its outcome), validate,
enrich, then store in Redshift and S3.  `datetime.fromisoformat` is
modelled by the environment predicate `isoOk` applied to the timestamp
after the Z-to-offset replacement.
-/

namespace DataProcessor

/-- The SageMaker prediction attached to a record (the parsed endpoint
response; on any endpoint failure the code substitutes prediction 0.0,
confidence 0.0). -/
structure MLPred where
  prediction : ℚ
  confidence : ℚ
  deriving Repr, DecidableEq

/-- A decoded event record; each JSON key may be absent.  `processed_at`,
`user_segment` and `ml_prediction` are the keys the processor itself adds. -/
structure Data where
  timestamp : Option String
  user_id : Option String
  event_type : Option String
  value : Option ℚ
  session_duration : Option ℚ
  processed_at : Option String
  user_segment : Option String
  ml_prediction : Option MLPred
  deriving Repr, DecidableEq

/-- A Kinesis record of the event: its sequence number and the outcome of
base64-decoding and JSON-parsing its data field. -/
structure KinesisRecord where
  sequenceNumber : String
  decoded : Except PyErr Data

/-- Environment: the processing timestamp, the ISO-parse test, and the
outcomes of the three SDK calls. -/
structure Env where
  nowIso : String
  isoOk : String → Bool
  mlOk : Bool
  mlResult : List ℚ → MLPred
  redshiftOk : Bool
  s3Ok : Bool

/-- SDK calls the processor makes per record. -/
inductive Effect where
  | sagemakerInvoke (features : List ℚ)
  | redshiftInsert (d : Data)
  | s3Put (d : Data)
  deriving Repr, DecidableEq

/-- The six accepted event types. -/
def valid_event_types : List String :=
  ["view", "click", "purchase", "signup", "login", "logout"]

/-- validate_data: the three required fields must be present, the timestamp
must parse as ISO (after replacing Z by +00:00), and the event type must be
one of the six accepted ones; each failure raises ValueError. -/
def validate_data (data : Data) (isoOk : String → Bool) : Except PyErr Unit :=
  if data.timestamp.isNone then
    .error (.valueError "Missing required field: timestamp")
  else if data.user_id.isNone then
    .error (.valueError "Missing required field: user_id")
  else if data.event_type.isNone then
    .error (.valueError "Missing required field: event_type")
  else if !isoOk (pyReplace (data.timestamp.getD "") 'Z' "+00:00") then
    .error (.valueError "Invalid timestamp format")
  else if !valid_event_types.contains (data.event_type.getD "") then
    .error (.valueError ("Invalid event_type: " ++ data.event_type.getD ""))
  else
    .ok ()

/-- calculate_session_duration: 0 for a login event, otherwise the record's
own session_duration defaulting to 0. -/
def calculate_session_duration (data : Data) : ℚ :=
  if data.event_type = some "login" then 0
  else if data.event_type = some "logout" then data.session_duration.getD 0
  else data.session_duration.getD 0

/-- determine_user_segment: purchase events are high_value, otherwise a
value above 100 is medium_value, otherwise low_value. -/
def determine_user_segment (data : Data) : String :=
  if data.event_type = some "purchase" then "high_value"
  else if data.value.getD 0 > 100 then "medium_value"
  else "low_value"

/-- extract_ml_features: the four-feature vector. -/
def extract_ml_features (data : Data) : List ℚ :=
  [data.value.getD 0,
   data.session_duration.getD 0,
   if data.event_type = some "purchase" then 1 else 0,
   if data.user_segment = some "high_value" then 1 else 0]

/-- get_ml_prediction: invoke the SageMaker endpoint; on any failure return
the default prediction instead of raising.  A failing call contributes no
effect. -/
def get_ml_prediction (features : List ℚ) (env : Env) : MLPred × List Effect :=
  if env.mlOk then (env.mlResult features, [.sagemakerInvoke features])
  else ({ prediction := 0, confidence := 0 }, [])

/-- process_record: stamp processed_at, validate, then enrich with
session_duration, user_segment and (for purchase, view and click events)
the ML prediction; the record dict is mutated in place, so each step sees
the previous ones. -/
def process_record (data : Data) (env : Env) : Except PyErr Data × List Effect :=
  let d1 : Data := { data with processed_at := some env.nowIso }
  match validate_data d1 env.isoOk with
  | .error e => (.error e, [])
  | .ok _ =>
    let d2 : Data := { d1 with session_duration := some (calculate_session_duration d1) }
    let d3 : Data := { d2 with user_segment := some (determine_user_segment d2) }
    if ["purchase", "view", "click"].contains (d3.event_type.getD "") then
      let features := extract_ml_features d3
      let (pred, effs) := get_ml_prediction features env
      (.ok { d3 with ml_prediction := some pred }, effs)
    else
      (.ok d3, [])

/-- Spec-side shorthand: the record as it stands after the enrichment
steps of process_record (processed_at, session_duration, user_segment),
before the optional ML prediction. -/
def enrichBase (data : Data) (env : Env) : Data :=
  let d1 : Data := { data with processed_at := some env.nowIso }
  let d2 : Data := { d1 with session_duration := some (calculate_session_duration d1) }
  { d2 with user_segment := some (determine_user_segment d2) }

/-- store_in_redshift: execute the INSERT statement; a failure raises. -/
def store_in_redshift (d : Data) (env : Env) : Except PyErr Unit × List Effect :=
  if env.redshiftOk then (.ok (), [.redshiftInsert d])
  else (.error (.otherError "Error storing in Redshift"), [])

/-- store_in_s3: put the JSON document under the partitioned key; a failure
raises. -/
def store_in_s3 (d : Data) (env : Env) : Except PyErr Unit × List Effect :=
  if env.s3Ok then (.ok (), [.s3Put d])
  else (.error (.otherError "Error storing in S3"), [])

/-- The per-record body of the loop in lambda_handler: decode, process,
store in Redshift, store in S3; the first exception aborts the record,
keeping the effects already performed. -/
def processOne (rec : KinesisRecord) (env : Env) : Except PyErr Unit × List Effect :=
  match rec.decoded with
  | .error e => (.error e, [])
  | .ok data =>
    match process_record data env with
    | (.error e, effs) => (.error e, effs)
    | (.ok d, effs) =>
      match store_in_redshift d env with
      | (.error e, e2) => (.error e, effs ++ e2)
      | (.ok _, e2) =>
        match store_in_s3 d env with
        | (.error e, e3) => (.error e, effs ++ e2 ++ e3)
        | (.ok _, e3) => (.ok (), effs ++ e2 ++ e3)

/-- Whether a record makes it through decode, validate, enrich and both
stores. -/
def succeeds (env : Env) (rec : KinesisRecord) : Bool :=
  match (processOne rec env).1 with
  | .ok _ => true
  | .error _ => false

/-- The record loop of lambda_handler: per record, append its sequence
number to processed_records on success and to failed_records on any
exception, and carry on with the remaining records.  Appending in
iteration order equals consing along this structural recursion. -/
def runRecords (env : Env) : List KinesisRecord → List String × List String × List Effect
  | [] => ([], [], [])
  | r :: rs =>
    let res := processOne r env
    let rest := runRecords env rs
    match res.1 with
    | .ok _ => (r.sequenceNumber :: rest.1, rest.2.1, res.2 ++ rest.2.2)
    | .error _ => (rest.1, r.sequenceNumber :: rest.2.1, res.2 ++ rest.2.2)

/-- The JSON body of the 200 response. -/
structure RespBody where
  processed : Nat
  failed : Nat
  processed_records : List String
  failed_records : List String
  deriving Repr, DecidableEq

/-- HTTP-style response of lambda_handler. -/
structure Response where
  statusCode : Nat
  body : RespBody
  deriving Repr, DecidableEq

/-- lambda_handler on an event whose Records list decodes: process every
record, then return 200 with the counts and the two sequence-number lists. -/
def lambda_handler (records : List KinesisRecord) (env : Env) :
    Response × List Effect :=
  let (p, f, effs) := runRecords env records
  ({ statusCode := 200,
     body := { processed := p.length, failed := f.length,
               processed_records := p, failed_records := f } }, effs)

end DataProcessor

/-! ## project6-data-analytics-ml / lambda_functions / cost_optimizer.py

Cost analysis and — in apply_automatic_optimizations — actual resource
modification: low-risk recommendations trigger
lambda update_function_configuration and kinesis update_shard_count calls.
Read-only SDK calls (Cost Explorer, describes, get_metric_statistics) are
modelled as environment lookups; the effect trace records the write calls
of the module: the two updates and cloudwatch put_metric_data.
-/

namespace CostOptimizer6

/-- Kinesis data the read calls of analyze_kinesis_utilization return:
shard count from describe_stream and the (Average, Maximum) IncomingRecords
datapoints from CloudWatch. -/
structure KinesisInfo where
  shards : Nat
  datapoints : List (ℚ × ℚ)

/-- Redshift data: node type and count from describe_clusters and the
(Average, Maximum) CPUUtilization datapoints. -/
structure RedshiftInfo where
  nodeType : String
  nodeCount : Nat
  cpuDatapoints : List (ℚ × ℚ)

/-- SageMaker data: the production variant and the Invocations Sum
datapoints. -/
structure SageMakerInfo where
  instanceType : String
  instanceCount : Nat
  invocationSums : List ℚ

/-- Lambda data: the function configuration and the Invocations Sum
datapoints. -/
structure LambdaInfo where
  memorySize : Nat
  timeout : Nat
  invocationSums : List ℚ

/-- S3 data: the BucketSizeBytes Average datapoints. -/
structure S3Info where
  sizeDatapoints : List ℚ

/-- Environment: per analyzer, either the data its read calls return or the
exception one of them raised (which the analyzer catches, producing an
error entry without a recommendation); plus outcomes of the write calls
and the Kinesis stream name from the environment variable. -/
structure Env where
  streamName : String
  kinesis : Except PyErr KinesisInfo
  redshift : Except PyErr RedshiftInfo
  sagemaker : Except PyErr SageMakerInfo
  lambdaFn : Except PyErr LambdaInfo
  s3 : Except PyErr S3Info
  applyLambdaOk : Bool
  applyKinesisOk : Bool
  metricsOk : Bool

/-- SDK write calls the module makes. -/
inductive Effect where
  | updateFunctionConfiguration (functionName : String) (memorySize : Nat)
  | updateShardCount (streamName : String) (target : Nat)
  | putMetricData
  deriving Repr, DecidableEq

/-- The kinesis entry of the utilization dict. -/
structure KinesisUtil where
  shard_count : Nat
  utilization_percentage : ℚ
  recommendation : String
  deriving Repr, DecidableEq

/-- analyze_kinesis_utilization: average the IncomingRecords datapoints,
divide by the shard count and by the 1000 records/s/shard capacity, and
recommend scale_down below 30 percent, scale_up above 80 percent,
maintain otherwise. -/
def analyze_kinesis_utilization (env : Env) : Option KinesisUtil :=
  match env.kinesis with
  | .error _ => none
  | .ok info =>
    let avg_records : ℚ :=
      if info.datapoints.isEmpty then 0
      else (info.datapoints.map Prod.fst).sum / info.datapoints.length
    let records_per_shard : ℚ :=
      if info.shards > 0 then avg_records / info.shards else 0
    let utilization_percentage : ℚ := records_per_shard / 1000 * 100
    some { shard_count := info.shards,
           utilization_percentage := utilization_percentage,
           recommendation :=
             if utilization_percentage < 30 then "scale_down"
             else if utilization_percentage > 80 then "scale_up"
             else "maintain" }

/-- The redshift entry of the utilization dict. -/
structure RedshiftUtil where
  node_count : Nat
  avg_cpu_utilization : ℚ
  recommendation : String
  deriving Repr, DecidableEq

/-- analyze_redshift_utilization: average CPU below 30 percent recommends
scale_down, above 80 scale_up, otherwise maintain. -/
def analyze_redshift_utilization (env : Env) : Option RedshiftUtil :=
  match env.redshift with
  | .error _ => none
  | .ok info =>
    let avg_cpu : ℚ :=
      if info.cpuDatapoints.isEmpty then 0
      else (info.cpuDatapoints.map Prod.fst).sum / info.cpuDatapoints.length
    some { node_count := info.nodeCount,
           avg_cpu_utilization := avg_cpu,
           recommendation :=
             if avg_cpu < 30 then "scale_down"
             else if avg_cpu > 80 then "scale_up"
             else "maintain" }

/-- The sagemaker entry of the utilization dict. -/
structure SageMakerUtil where
  instance_count : Nat
  avg_invocations_per_hour : ℚ
  recommendation : String
  deriving Repr, DecidableEq

/-- analyze_sagemaker_utilization: fewer than 10 invocations per hour on
average recommends scale_down, more than 100 scale_up, otherwise
maintain. -/
def analyze_sagemaker_utilization (env : Env) : Option SageMakerUtil :=
  match env.sagemaker with
  | .error _ => none
  | .ok info =>
    let avg : ℚ :=
      if info.invocationSums.isEmpty then 0
      else info.invocationSums.sum / info.invocationSums.length
    some { instance_count := info.instanceCount,
           avg_invocations_per_hour := avg,
           recommendation :=
             if avg < 10 then "scale_down"
             else if avg > 100 then "scale_up"
             else "maintain" }

/-- The lambda entry of the utilization dict. -/
structure LambdaUtil where
  memory_size : Nat
  recommendation : String
  deriving Repr, DecidableEq

/-- analyze_lambda_utilization: a memory size above 512 MB recommends
optimize_memory, otherwise maintain. -/
def analyze_lambda_utilization (env : Env) : Option LambdaUtil :=
  match env.lambdaFn with
  | .error _ => none
  | .ok info =>
    some { memory_size := info.memorySize,
           recommendation :=
             if info.memorySize > 512 then "optimize_memory" else "maintain" }

/-- The s3 entry of the utilization dict. -/
structure S3Util where
  bucket_size_gb : ℚ
  recommendation : String
  deriving Repr, DecidableEq

/-- analyze_s3_utilization: a bucket above 100 GB recommends
enable_lifecycle, otherwise maintain. -/
def analyze_s3_utilization (env : Env) : Option S3Util :=
  match env.s3 with
  | .error _ => none
  | .ok info =>
    let gb : ℚ :=
      match info.sizeDatapoints with
      | [] => 0
      | b :: _ => b / (1024 * 1024 * 1024)
    some { bucket_size_gb := gb,
           recommendation := if gb > 100 then "enable_lifecycle" else "maintain" }

/-- The utilization dict assembled by analyze_resource_utilization; an
entry is `none` when that analyzer caught an exception and returned an
error dict without a recommendation key. -/
structure Utilization where
  kinesis : Option KinesisUtil
  redshift : Option RedshiftUtil
  sagemaker : Option SageMakerUtil
  lambdaUtil : Option LambdaUtil
  s3 : Option S3Util

/-- analyze_resource_utilization. -/
def analyze_resource_utilization (env : Env) : Utilization :=
  { kinesis := analyze_kinesis_utilization env,
    redshift := analyze_redshift_utilization env,
    sagemaker := analyze_sagemaker_utilization env,
    lambdaUtil := analyze_lambda_utilization env,
    s3 := analyze_s3_utilization env }

/-- A recommendation dict; the `recommended_*` keys only exist for the
service the recommendation is about. -/
structure Recommendation where
  service : String
  action : String
  potential_savings : ℚ
  risk_level : String
  recommended_shards : Option Nat := none
  recommended_nodes : Option Nat := none
  recommended_instances : Option Nat := none
  recommended_memory : Option Nat := none
  deriving Repr, DecidableEq

/-- generate_optimization_recommendations: one possible recommendation per
service, in source order. -/
def generate_optimization_recommendations (util : Utilization) : List Recommendation :=
  (match util.kinesis with
   | some k =>
     if k.recommendation = "scale_down" then
       [{ service := "kinesis", action := "scale_down_shards",
          recommended_shards := some (max 1 (k.shard_count - 1)),
          potential_savings := 25, risk_level := "low" }]
     else if k.recommendation = "scale_up" then
       [{ service := "kinesis", action := "scale_up_shards",
          recommended_shards := some (k.shard_count + 1),
          potential_savings := -25, risk_level := "low" }]
     else []
   | none => []) ++
  (match util.redshift with
   | some r =>
     if r.recommendation = "scale_down" then
       [{ service := "redshift", action := "scale_down_nodes",
          recommended_nodes := some (max 1 (r.node_count - 1)),
          potential_savings := 150, risk_level := "medium" }]
     else []
   | none => []) ++
  (match util.sagemaker with
   | some s =>
     if s.recommendation = "scale_down" then
       [{ service := "sagemaker", action := "scale_down_instances",
          recommended_instances := some (max 1 (s.instance_count - 1)),
          potential_savings := 50, risk_level := "medium" }]
     else []
   | none => []) ++
  (match util.lambdaUtil with
   | some l =>
     if l.recommendation = "optimize_memory" then
       [{ service := "lambda", action := "optimize_memory",
          recommended_memory := some 256,
          potential_savings := 10, risk_level := "low" }]
     else []
   | none => []) ++
  (match util.s3 with
   | some s =>
     if s.recommendation = "enable_lifecycle" then
       [{ service := "s3", action := "enable_lifecycle_policies",
          potential_savings := s.bucket_size_gb * 2 / 100, risk_level := "low" }]
     else []
   | none => [])

/-- An entry of the applied-optimizations list. -/
structure AppliedEntry where
  recommendation : Recommendation
  status : String
  deriving Repr, DecidableEq

/-- apply_automatic_optimizations: for each low-risk recommendation, the
lambda optimize_memory branch calls update_function_configuration and the
kinesis scale_down_shards branch calls update_shard_count; an SDK failure
is recorded as a failed entry; any other low-risk recommendation matches
neither branch and is skipped silently. -/
def apply_automatic_optimizations (recs : List Recommendation) (env : Env) :
    List AppliedEntry × List Effect :=
  match recs with
  | [] => ([], [])
  | rec :: rest =>
    let tail := apply_automatic_optimizations rest env
    if rec.risk_level = "low" then
      if rec.service = "lambda" ∧ rec.action = "optimize_memory" then
        if env.applyLambdaOk then
          ({ recommendation := rec, status := "applied" } :: tail.1,
           .updateFunctionConfiguration
               "data-analytics-ml-analytics-data-processor"
               (rec.recommended_memory.getD 0) :: tail.2)
        else
          ({ recommendation := rec, status := "failed" } :: tail.1, tail.2)
      else if rec.service = "kinesis" ∧ rec.action = "scale_down_shards" then
        if env.applyKinesisOk then
          ({ recommendation := rec, status := "applied" } :: tail.1,
           .updateShardCount env.streamName
               (rec.recommended_shards.getD 0) :: tail.2)
        else
          ({ recommendation := rec, status := "failed" } :: tail.1, tail.2)
      else tail
    else tail

/-- publish_cost_optimization_metrics: one put_metric_data call, with any
failure caught and swallowed. -/
def publish_cost_optimization_metrics (env : Env) : List Effect :=
  if env.metricsOk then [.putMetricData] else []

/-- lambda_handler: costs and utilization are read (environment lookups),
recommendations are generated, automatic optimizations applied, savings
and the report computed (pure), and metrics published; the effect trace is
the writes in program order. -/
def lambda_handler (env : Env) : Nat × List Effect :=
  let util := analyze_resource_utilization env
  let recs := generate_optimization_recommendations util
  let (_applied, applyEffs) := apply_automatic_optimizations recs env
  (200, applyEffs ++ publish_cost_optimization_metrics env)

/-- Which effects of this module modify a compute or storage resource
configuration (put_metric_data only publishes metrics). -/
def Effect.modifiesResource : Effect → Bool
  | .updateFunctionConfiguration _ _ => true
  | .updateShardCount _ _ => true
  | .putMetricData => false

end CostOptimizer6

/-! ## project6-data-analytics-ml / lambda_functions / performance_tester.py

Only the aggregation logic is embedded: the request latencies that the
wall clock produces are inputs.  `analyze_performance_results` walks the
entries of the test_results dict; an entry contributes a score only when
it is a dict that carries a status key.
-/

namespace PerformanceTester

/-- Python max over a nonempty list of rationals (0 for the empty list,
on which the source never calls it). -/
def pyMax : List ℚ → ℚ
  | [] => 0
  | x :: xs => xs.foldl max x

/-- Python min over a nonempty list of rationals (0 for the empty list,
on which the source never calls it). -/
def pyMin : List ℚ → ℚ
  | [] => 0
  | x :: xs => xs.foldl min x

/-- statistics.mean (0 for the empty list, on which the source never calls
it: every component result dict either has its fields or is an error
dict without a status). -/
def pyMean (l : List ℚ) : ℚ := l.sum / l.length

/-- An entry of the test_results dict, as analyze_performance_results
inspects it: a non-dict value (the test_timestamp string), a dict without
a status key, or a dict whose status is the given string. -/
inductive ComponentResult where
  | nonDict
  | noStatus
  | withStatus (s : String)
  deriving Repr, DecidableEq

/-- Score of one entry: only dict entries with a status score — 100 for
PASS, 50 for FAIL, 0 for anything else. -/
def componentScore : ComponentResult → Option ℚ
  | .nonDict => none
  | .noStatus => none
  | .withStatus s => some (if s = "PASS" then 100 else if s = "FAIL" then 50 else 0)

/-- Result of analyze_performance_results. -/
structure Analysis where
  overall_score : ℚ
  grade : String
  component_scores : List ℚ
  deriving Repr, DecidableEq

/-- analyze_performance_results: mean of the component scores (0 when no
component carries a status) and the letter grade by thresholds
90/80/70/60. -/
def analyze_performance_results (test_results : List (String × ComponentResult)) :
    Analysis :=
  let scores := test_results.filterMap (fun p => componentScore p.2)
  let overall_score : ℚ := if scores.isEmpty then 0 else pyMean scores
  { overall_score := overall_score,
    grade :=
      if overall_score ≥ 90 then "A"
      else if overall_score ≥ 80 then "B"
      else if overall_score ≥ 70 then "C"
      else if overall_score ≥ 60 then "D"
      else "F",
    component_scores := scores }

/-- Result dict of run_load_tests. -/
structure LoadTestResult where
  concurrent_requests : Nat
  average_latency_ms : ℚ
  max_latency_ms : ℚ
  min_latency_ms : ℚ
  status : String
  deriving Repr, DecidableEq

/-- run_load_tests: fire 50 concurrent put_record calls (their measured
latencies are the input here) and aggregate mean, max and min; PASS iff
the mean latency is below 500 ms. -/
def run_load_tests (latencies : List ℚ) : LoadTestResult :=
  { concurrent_requests := 50,
    average_latency_ms := pyMean latencies,
    max_latency_ms := pyMax latencies,
    min_latency_ms := pyMin latencies,
    status := if pyMean latencies < 500 then "PASS" else "FAIL" }

end PerformanceTester

/-! ## Concrete inputs used by the counterexamples and witnesses -/

/-- A CloudWatch alarm event whose alarm name contains instance-status and
whose state reason carries an instance id. -/
def c5Event : AutoRemediation.Event :=
  { detail := some
      { alarmName := some "prod-instance-status-check",
        state := some
          { value := some "ALARM",
            reason := some "Instance i-0abc123def failed status checks" } } }

/-- An environment in which every SDK call the remediation would make
succeeds. -/
def c5Env : AutoRemediation.Env :=
  { describeInstances := fun _ => .ok { stateName := "running" },
    ssmOk := true, rebootOk := true, snsOk := true }

/-- An open-to-the-world ingress rule. -/
def c6Rule1 : ComplianceMonitor.IpPermission := { ipRanges := ["0.0.0.0/0"] }

/-- A benign ingress rule. -/
def c6Rule2 : ComplianceMonitor.IpPermission := { ipRanges := ["10.0.0.0/16"] }

/-- A rule carrying both a benign range and 0.0.0.0/0. -/
def c6Rule3 : ComplianceMonitor.IpPermission :=
  { ipRanges := ["192.168.1.0/24", "0.0.0.0/0"] }

/-- An environment in which the security group has the three rules above
and revocation succeeds. -/
def c6Env : ComplianceMonitor.Env :=
  { describeSecurityGroups := fun _ =>
      .ok { ipPermissions := [c6Rule1, c6Rule2, c6Rule3] },
    revokeOk := true }

/-- An environment for check_idle_instances with two running instances:
one averaging 3.5 percent CPU, one averaging 50. -/
def c8Env : CostOptimizer3.IdleEnv :=
  { running := .ok ["i-aaa", "i-bbb"],
    cpu := fun id => if id = "i-aaa" then .ok [3, 4] else .ok [50] }

/-- An environment for the project6 cost optimizer in which the Lambda
configuration reports 1024 MB (triggering the low-risk optimize_memory
recommendation), every other analyzer fails its read call, the
update_function_configuration call succeeds, and put_metric_data fails. -/
def c2Env : CostOptimizer6.Env :=
  { streamName := "analytics-stream",
    kinesis := .error (.clientError "describe_stream failed"),
    redshift := .error (.clientError "describe_clusters failed"),
    sagemaker := .error (.clientError "describe_endpoint failed"),
    lambdaFn := .ok { memorySize := 1024, timeout := 60, invocationSums := [10] },
    s3 := .error (.clientError "get_metric_statistics failed"),
    applyLambdaOk := true, applyKinesisOk := true, metricsOk := false }

/-- A contact submission that is valid on every count the claim lists, with
a phone consisting of a single dash. -/
def c3Phone : ContactHandler.FormData :=
  { name := some "Jane Doe", email := some "jane@example.com",
    subject := some "Hello", message := some "A sufficiently long message.",
    phone := some "-", priority := none }

/-- An environment in which both contact-handler SDK calls succeed. -/
def c3Env : ContactHandler.Env := { dbOk := true, snsOk := true }

/-- A fully valid contact submission. -/
def c3Valid : ContactHandler.FormData :=
  { name := some "Jane Doe", email := some "jane@example.com",
    subject := some "Hello", message := some "A sufficiently long message.",
    phone := some "(555) 123-4567", priority := some "high" }

/-- A valid contact submission for the notification-failure scenario. -/
def c10Body : ContactHandler.FormData :=
  { name := some "John Roe", email := some "john@example.org",
    subject := some "Support request",
    message := some "Please help with my account.",
    phone := none, priority := none }

/-- An environment in which the DynamoDB put succeeds and the SNS publish
raises. -/
def c10Env : ContactHandler.Env := { dbOk := true, snsOk := false }

/-- A data-processor environment in which every call succeeds and every
timestamp parses. -/
def c4Env : DataProcessor.Env :=
  { nowIso := "2024-05-01T12:00:00", isoOk := fun _ => true, mlOk := true,
    mlResult := fun _ => { prediction := 1, confidence := 1 },
    redshiftOk := true, s3Ok := true }

/-- A Kinesis record that decodes and validates (a click event). -/
def c4GoodRec : DataProcessor.KinesisRecord :=
  { sequenceNumber := "seq-1",
    decoded := .ok
      { timestamp := some "2024-05-01T11:59:00Z", user_id := some "u1",
        event_type := some "click", value := some 42,
        session_duration := some 10, processed_at := none,
        user_segment := none, ml_prediction := none } }

/-- A Kinesis record that decodes but fails validation (unknown event
type). -/
def c4BadRec : DataProcessor.KinesisRecord :=
  { sequenceNumber := "seq-2",
    decoded := .ok
      { timestamp := some "2024-05-01T11:59:00Z", user_id := some "u2",
        event_type := some "browse", value := none,
        session_duration := none, processed_at := none,
        user_segment := none, ml_prediction := none } }

/-- The record the good click event is stored as: validated, stamped and
enriched, with the ML prediction attached. -/
def c4Stored : DataProcessor.Data :=
  { timestamp := some "2024-05-01T11:59:00Z", user_id := some "u1",
    event_type := some "click", value := some 42, session_duration := some 10,
    processed_at := some "2024-05-01T12:00:00", user_segment := some "low_value",
    ml_prediction := some { prediction := 1, confidence := 1 } }

/-- Fifty measured latencies of 100 ms each. -/
def c9Latencies : List ℚ := List.replicate 50 100

/-! ## Theorems for the claims -/

/-- C1: every invocation of the project3 auto-remediation handler, the
project3 cost-optimizer handler, the monitoringSecurity security-response
handler and the monitoringSecurity compliance-monitor handler returns
statusCode 500 with an empty effect trace — no remediation, SDK write or
SNS notification — because each evaluates os.environ.get inside its
top-level try block without importing os, so NameError is raised and
caught by the catch-all except. -/
theorem claim_C1 :
    (∀ (event : AutoRemediation.Event) (env : AutoRemediation.Env),
        (AutoRemediation.handler event env).1.statusCode = 500 ∧
        (AutoRemediation.handler event env).2 = []) ∧
    (∀ rest, (CostOptimizer3.handler rest).1.statusCode = 500 ∧
        (CostOptimizer3.handler rest).2 = []) ∧
    (∀ (Ev : Type) (event : Ev) rest,
        (SecurityResponse.handler event rest).1.statusCode = 500 ∧
        (SecurityResponse.handler event rest).2 = []) ∧
    (∀ (Ev : Type) (event : Ev) rest,
        (ComplianceMonitor.handler event rest).1.statusCode = 500 ∧
        (ComplianceMonitor.handler event rest).2 = []) := by
  refine ⟨?_, fun rest => ⟨rfl, rfl⟩, fun Ev event rest => ⟨rfl, rfl⟩,
          fun Ev event rest => ⟨rfl, rfl⟩⟩
  intro event env
  obtain ⟨detail⟩ := event
  cases detail with
  | none => exact ⟨rfl, rfl⟩
  | some d =>
    obtain ⟨an, st⟩ := d
    cases an with
    | none => exact ⟨rfl, rfl⟩
    | some a =>
      cases st with
      | none => exact ⟨rfl, rfl⟩
      | some s =>
        obtain ⟨v, r⟩ := s
        cases v with
        | none => exact ⟨rfl, rfl⟩
        | some vv =>
          cases r with
          | none => exact ⟨rfl, rfl⟩
          | some rr => exact ⟨rfl, rfl⟩

/-- C5, evaluation at the failing input: on the alarm event whose name
contains instance-status and whose reason carries the instance id
i-0abc123def, with every SDK call succeeding, the handler returns
statusCode 500 performing no EC2 or SSM call (the NameError fires before
the dispatch), even though the dispatch logic itself — which the handler
never reaches — would reboot exactly that instance. -/
theorem claim_C5_failing :
    (AutoRemediation.handler c5Event c5Env).1.statusCode = 500 ∧
    (AutoRemediation.handler c5Event c5Env).2 = [] ∧
    AutoRemediation.dispatchAlarm "prod-instance-status-check"
        "Instance i-0abc123def failed status checks" c5Env =
      (.ok "Rebooted instance i-0abc123def",
       [.ec2RebootInstances ["i-0abc123def"]]) := by
  refine ⟨rfl, rfl, ?_⟩
  rfl

/-- C6, evaluation at the failing input: every invocation of the
compliance-monitor handler returns statusCode 500 with no SDK call (the
NameError fires before any dispatch), even though the security-group
remediation the dispatch would reach revokes exactly the ingress rules
carrying 0.0.0.0/0. -/
theorem claim_C6_failing :
    (∀ rest, (ComplianceMonitor.handler () rest).1.statusCode = 500 ∧
        (ComplianceMonitor.handler () rest).2 = []) ∧
    ComplianceMonitor.handle_security_group_violation "sg-0123" c6Env =
      ("Security group sg-0123 remediated: Removed overly permissive rule: 0.0.0.0/0; Removed overly permissive rule: 0.0.0.0/0",
       [.revokeSecurityGroupIngress "sg-0123" c6Rule1,
        .revokeSecurityGroupIngress "sg-0123" c6Rule3]) := by
  refine ⟨fun rest => ⟨rfl, rfl⟩, ?_⟩
  rfl

/-- C8: the project3 cost optimizer classifies an instance as idle iff the
CPU metric call returns at least one datapoint and the mean of the Average
values is strictly below 5.0 percent; no datapoints, or a raising metric
call, never reports idle.  check_idle_instances keeps exactly the running
instances so classified. -/
theorem claim_C8 :
    (∀ dps : CostOptimizer3.MetricResult,
        CostOptimizer3.is_instance_idle dps = true ↔
          ∃ l : List ℚ, dps = .ok l ∧ l ≠ [] ∧ l.sum / l.length < 5) ∧
    (∀ (env : CostOptimizer3.IdleEnv) (ids : List String),
        env.running = .ok ids →
        CostOptimizer3.check_idle_instances env =
          ids.filter (fun id => CostOptimizer3.is_instance_idle (env.cpu id))) := by
  constructor
  · intro dps
    cases dps with
    | error e => simp [CostOptimizer3.is_instance_idle]
    | ok l =>
      cases l with
      | nil => simp [CostOptimizer3.is_instance_idle]
      | cons x xs =>
        simp [CostOptimizer3.is_instance_idle]
  · intro env ids h
    unfold CostOptimizer3.check_idle_instances
    rw [h]

/-- Witness for C8: in the concrete environment with a 3.5-percent and a
50-percent instance, exactly the first is reported idle. -/
theorem claim_C8_witness :
    CostOptimizer3.check_idle_instances c8Env = ["i-aaa"] ∧
    CostOptimizer3.is_instance_idle (.ok [(3 : ℚ), 4]) = true := by
  constructor
  · have h := claim_C8.2 c8Env ["i-aaa", "i-bbb"] rfl
    rw [h]
    simp [c8Env, CostOptimizer3.is_instance_idle, List.filter]
    norm_num
  · exact (claim_C8.1 (.ok [(3 : ℚ), 4])).mpr ⟨[3, 4], rfl, by simp, by norm_num⟩

/-- The effects of apply_automatic_optimizations are only Lambda
configuration updates of the data-processor function and shard-count
updates of the configured stream. -/
lemma apply_effects_shape (env : CostOptimizer6.Env) :
    ∀ recs, ∀ e ∈ (CostOptimizer6.apply_automatic_optimizations recs env).2,
      (∃ m, e = .updateFunctionConfiguration
          "data-analytics-ml-analytics-data-processor" m) ∨
      (∃ n, e = .updateShardCount env.streamName n) := by
  intro recs
  induction recs with
  | nil => simp [CostOptimizer6.apply_automatic_optimizations]
  | cons r rs ih =>
    intro e he
    simp only [CostOptimizer6.apply_automatic_optimizations] at he
    by_cases h1 : r.risk_level = "low"
    · by_cases h2 : r.service = "lambda" ∧ r.action = "optimize_memory"
      · by_cases h3 : env.applyLambdaOk = true
        · simp only [h1, h2, h3, if_true, if_pos] at he
          rcases List.mem_cons.1 he with he1 | he2
          · exact .inl ⟨r.recommended_memory.getD 0, he1⟩
          · exact ih e he2
        · simp only [h1, h2, h3, if_true, if_pos, if_neg] at he
          exact ih e he
      · by_cases h4 : r.service = "kinesis" ∧ r.action = "scale_down_shards"
        · by_cases h5 : env.applyKinesisOk = true
          · simp only [h1, h2, h4, h5, if_true, if_pos, if_neg] at he
            rcases List.mem_cons.1 he with he1 | he2
            · exact .inr ⟨r.recommended_shards.getD 0, he1⟩
            · exact ih e he2
          · simp only [h1, h2, h4, h5, if_true, if_pos, if_neg] at he
            exact ih e he
        · simp only [h1, h2, h4, if_pos, if_neg] at he
          exact ih e he
    · simp only [h1, if_neg] at he
      exact ih e he

/-- A Lambda configuration update appears in the apply trace iff the call
succeeds and some low-risk lambda optimize_memory recommendation is in the
list. -/
lemma apply_updateFn_mem (env : CostOptimizer6.Env) :
    ∀ recs, (∃ m, CostOptimizer6.Effect.updateFunctionConfiguration
        "data-analytics-ml-analytics-data-processor" m ∈
          (CostOptimizer6.apply_automatic_optimizations recs env).2) ↔
      (env.applyLambdaOk = true ∧ ∃ r ∈ recs, r.risk_level = "low" ∧
        r.service = "lambda" ∧ r.action = "optimize_memory") := by
  intro recs
  induction recs with
  | nil => simp [CostOptimizer6.apply_automatic_optimizations]
  | cons r rs ih =>
    by_cases h1 : r.risk_level = "low"
    · by_cases h2 : r.service = "lambda" ∧ r.action = "optimize_memory"
      · by_cases h3 : env.applyLambdaOk = true
        · simp [CostOptimizer6.apply_automatic_optimizations, h1, h2.1, h2.2, h3, ih]
        · simp [CostOptimizer6.apply_automatic_optimizations, h1, h2, h3, ih]
      · by_cases h4 : r.service = "kinesis" ∧ r.action = "scale_down_shards"
        · by_cases h5 : env.applyKinesisOk = true
          · simp [CostOptimizer6.apply_automatic_optimizations, h1, h2, h4, h5, ih]
          · simp [CostOptimizer6.apply_automatic_optimizations, h1, h2, h4, h5, ih]
        · simp [CostOptimizer6.apply_automatic_optimizations, h1, h2, h4, ih]
    · simp [CostOptimizer6.apply_automatic_optimizations, h1, ih]

/-- A shard-count update appears in the apply trace iff the call succeeds
and some low-risk kinesis scale_down_shards recommendation is in the
list. -/
lemma apply_updateShards_mem (env : CostOptimizer6.Env) :
    ∀ recs, (∃ n, CostOptimizer6.Effect.updateShardCount env.streamName n ∈
          (CostOptimizer6.apply_automatic_optimizations recs env).2) ↔
      (env.applyKinesisOk = true ∧ ∃ r ∈ recs, r.risk_level = "low" ∧
        r.service = "kinesis" ∧ r.action = "scale_down_shards") := by
  intro recs
  induction recs with
  | nil => simp [CostOptimizer6.apply_automatic_optimizations]
  | cons r rs ih =>
    by_cases h1 : r.risk_level = "low"
    · by_cases h2 : r.service = "lambda" ∧ r.action = "optimize_memory"
      · by_cases h3 : env.applyLambdaOk = true
        · simp [CostOptimizer6.apply_automatic_optimizations, h1, h2, h3, ih]
        · simp [CostOptimizer6.apply_automatic_optimizations, h1, h2, h3, ih]
      · by_cases h4 : r.service = "kinesis" ∧ r.action = "scale_down_shards"
        · by_cases h5 : env.applyKinesisOk = true
          · simp [CostOptimizer6.apply_automatic_optimizations, h1, h2, h4.1, h4.2, h5, ih]
          · simp [CostOptimizer6.apply_automatic_optimizations, h1, h2, h4, h5, ih]
        · simp [CostOptimizer6.apply_automatic_optimizations, h1, h2, h4, ih]
    · simp [CostOptimizer6.apply_automatic_optimizations, h1, ih]

/-- C2 counterexample: with the Lambda configuration reporting 1024 MB,
one execution of the project6 cost-optimizer handler issues an
update_function_configuration call — a modification of Lambda
configuration — so the handler is not read-only apart from
notifications/metrics. -/
theorem claim_C2_counterexample :
    (CostOptimizer6.lambda_handler c2Env).2 =
      [.updateFunctionConfiguration "data-analytics-ml-analytics-data-processor" 256] ∧
    CostOptimizer6.Effect.modifiesResource
      (.updateFunctionConfiguration "data-analytics-ml-analytics-data-processor" 256) = true := by
  exact ⟨rfl, rfl⟩

/-- C2 as amended: the only resource modifications a project6
cost-optimizer execution can make are updates of the data-processor Lambda
memory configuration and of the stream's shard count — each occurring iff
the corresponding low-risk recommendation is present and the call succeeds
— and the project3 cost-optimizer handler performs no SDK write at all. -/
theorem claim_C2 :
    ∀ (env : CostOptimizer6.Env) (recs : List CostOptimizer6.Recommendation),
    (∀ e ∈ (CostOptimizer6.lambda_handler env).2,
        CostOptimizer6.Effect.modifiesResource e = true →
          (∃ m, e = .updateFunctionConfiguration
              "data-analytics-ml-analytics-data-processor" m) ∨
          (∃ n, e = .updateShardCount env.streamName n)) ∧
    ((∃ m, CostOptimizer6.Effect.updateFunctionConfiguration
        "data-analytics-ml-analytics-data-processor" m ∈
          (CostOptimizer6.apply_automatic_optimizations recs env).2) ↔
      (env.applyLambdaOk = true ∧ ∃ r ∈ recs, r.risk_level = "low" ∧
        r.service = "lambda" ∧ r.action = "optimize_memory")) ∧
    ((∃ n, CostOptimizer6.Effect.updateShardCount env.streamName n ∈
          (CostOptimizer6.apply_automatic_optimizations recs env).2) ↔
      (env.applyKinesisOk = true ∧ ∃ r ∈ recs, r.risk_level = "low" ∧
        r.service = "kinesis" ∧ r.action = "scale_down_shards")) ∧
    (∀ rest, (CostOptimizer3.handler rest).2 = []) := by
  intro env recs
  refine ⟨?_, apply_updateFn_mem env recs, apply_updateShards_mem env recs,
          fun rest => rfl⟩
  intro e he hmod
  unfold CostOptimizer6.lambda_handler at he
  rcases List.mem_append.1 he with ha | hp
  · exact apply_effects_shape env _ e ha
  · exfalso
    unfold CostOptimizer6.publish_cost_optimization_metrics at hp
    by_cases hm : env.metricsOk = true
    · simp only [hm, if_pos] at hp
      rcases List.mem_singleton.1 hp with rfl
      simp [CostOptimizer6.Effect.modifiesResource] at hmod
    · simp only [hm, if_neg] at hp
      simp at hp

/-- Witness for C2: in the 1024-MB environment the generated
recommendation list contains the low-risk lambda optimize_memory entry, so
the apply trace contains a Lambda configuration update. -/
theorem claim_C2_witness :
    ∃ m, CostOptimizer6.Effect.updateFunctionConfiguration
        "data-analytics-ml-analytics-data-processor" m ∈
      (CostOptimizer6.apply_automatic_optimizations
        (CostOptimizer6.generate_optimization_recommendations
          (CostOptimizer6.analyze_resource_utilization c2Env)) c2Env).2 := by
  refine (claim_C2 c2Env
      (CostOptimizer6.generate_optimization_recommendations
        (CostOptimizer6.analyze_resource_utilization c2Env))).2.1.mpr ⟨rfl, ?_⟩
  refine ⟨{ service := "lambda", action := "optimize_memory",
            potential_savings := 10, risk_level := "low",
            recommended_memory := some 256 }, ?_, rfl, rfl, rfl⟩
  simp [CostOptimizer6.generate_optimization_recommendations,
        CostOptimizer6.analyze_resource_utilization,
        CostOptimizer6.analyze_kinesis_utilization,
        CostOptimizer6.analyze_redshift_utilization,
        CostOptimizer6.analyze_sagemaker_utilization,
        CostOptimizer6.analyze_lambda_utilization,
        CostOptimizer6.analyze_s3_utilization, c2Env]

/-- Truthiness of an optional string equals nonemptiness of its getD. -/
lemma truthy_getD (o : Option String) : truthy o = !(o.getD "").isEmpty := by
  cases o <;> rfl

/-- The code's validation passes exactly when the amended claim-side
predicate accepts. -/
lemma valid_iff (data : ContactHandler.FormData) :
    (ContactHandler.validate_form_data data).valid = true ↔
      ContactHandler.claimRejectsAmended data = false := by
  unfold ContactHandler.validate_form_data ContactHandler.claimRejectsAmended
  simp only [truthy_getD]
  simp [List.append_eq_nil, ite_eq_right_iff]
  tauto

/-- A submission that passes validation has all four required fields
present. -/
lemma fields_of_valid (data : ContactHandler.FormData)
    (h : (ContactHandler.validate_form_data data).valid = true) :
    (∃ nm, data.name = some nm) ∧ (∃ em, data.email = some em) ∧
    (∃ su, data.subject = some su) ∧ (∃ me, data.message = some me) := by
  unfold ContactHandler.validate_form_data at h
  simp [List.append_eq_nil, ite_eq_right_iff, truthy] at h
  obtain ⟨h1, h2, h3, h4, -⟩ := h
  refine ⟨?_, ?_, ?_, ?_⟩
  · cases hx : data.name with
    | none => rw [hx] at h1; simp [truthy] at h1
    | some nm => exact ⟨nm, rfl⟩
  · cases hx : data.email with
    | none => rw [hx] at h2; simp [truthy] at h2
    | some em => exact ⟨em, rfl⟩
  · cases hx : data.subject with
    | none => rw [hx] at h3; simp [truthy] at h3
    | some su => exact ⟨su, rfl⟩
  · cases hx : data.message with
    | none => rw [hx] at h4; simp [truthy] at h4
    | some me => exact ⟨me, rfl⟩

/-- The success path of the contact handler: on a valid submission with a
succeeding DynamoDB put, the response is 200 with the fresh submission id,
the stored item carries that id and status new, and the SNS publication
follows iff the publish call succeeds. -/
lemma handler_success (data : ContactHandler.FormData)
    (env : ContactHandler.Env) (uuid now : String)
    (hvalid : (ContactHandler.validate_form_data data).valid = true)
    (hdb : env.dbOk = true) :
    ∃ item, ContactHandler.lambda_handler (.ok data) env uuid now =
        ({ statusCode := 200, body := .success uuid now },
         [.dynamoPutItem ContactHandler.CONTACT_TABLE item] ++
           (if env.snsOk = true then
              [.snsPublish ContactHandler.SNS_TOPIC_ARN
                ("New Contact Form Submission - " ++ data.subject.getD "")]
            else [])) ∧
      item.submission_id = uuid ∧ item.status = "new" := by
  obtain ⟨⟨nm, hnm⟩, ⟨em, hem⟩, ⟨su, hsu⟩, ⟨me, hme⟩⟩ := fields_of_valid data hvalid
  refine ⟨{ submission_id := uuid, name := nm, email := em,
            phone := data.phone.getD "", subject := su, message := me,
            priority := data.priority.getD "medium", status := "new",
            created_at := now, updated_at := now }, ?_, rfl, rfl⟩
  simp only [ContactHandler.lambda_handler, ContactHandler.process_contact_submission,
             ContactHandler.send_notification_email]
  rw [hvalid, hnm, hem, hsu, hme, hdb]
  cases hs : env.snsOk <;> simp [hsu]

/-- C3 counterexample: the submission whose phone is a single dash meets
none of the claim's rejection conditions (its phone has no character
beyond dashes/parentheses/spaces that is not a digit), yet the handler
rejects it with statusCode 400: stripping the phone leaves the empty
string, which isdigit rejects. -/
theorem claim_C3_counterexample :
    ContactHandler.claimRejects c3Phone = false ∧
    (ContactHandler.lambda_handler (.ok c3Phone) c3Env
        "sub-1" "2024-01-01T00:00:00").1.statusCode = 400 := by
  exact ⟨by decide, by decide⟩

/-- C3 as amended: with both SDK calls succeeding, the handler rejects with
statusCode 400, the error list and no effect exactly when a required field
is missing/empty, the email lacks an at-sign, the message is shorter than
10 characters, or a provided phone does not reduce — after removing
dashes, parentheses and spaces — to a nonempty string of digits; otherwise
it writes exactly one DynamoDB item carrying the fresh submission id and
status new, publishes exactly one SNS message, in that order, and returns
200 with the submission id. -/
theorem claim_C3 :
    ∀ (data : ContactHandler.FormData) (env : ContactHandler.Env) (uuid now : String),
    env.dbOk = true → env.snsOk = true →
    ((ContactHandler.claimRejectsAmended data = true →
        ContactHandler.lambda_handler (.ok data) env uuid now =
          ({ statusCode := 400,
             body := .validationFailed (ContactHandler.validate_form_data data).errors },
           [])) ∧
     (ContactHandler.claimRejectsAmended data = false →
        ∃ item, ContactHandler.lambda_handler (.ok data) env uuid now =
            ({ statusCode := 200, body := .success uuid now },
             [.dynamoPutItem ContactHandler.CONTACT_TABLE item,
              .snsPublish ContactHandler.SNS_TOPIC_ARN
                ("New Contact Form Submission - " ++ data.subject.getD "")]) ∧
          item.submission_id = uuid ∧ item.status = "new") ∧
     ((ContactHandler.validate_form_data data).valid = false ↔
        ContactHandler.claimRejectsAmended data = true)) := by
  intro data env uuid now hdb hsns
  have hv := valid_iff data
  refine ⟨?_, ?_, ?_⟩
  · intro hrej
    have hvalid : (ContactHandler.validate_form_data data).valid = false := by
      rcases Bool.eq_false_or_eq_true (ContactHandler.validate_form_data data).valid
        with h | h
      · rw [hv.mp h] at hrej; cases hrej
      · exact h
    simp only [ContactHandler.lambda_handler]
    rw [hvalid]
    simp
  · intro hok
    obtain ⟨item, heq, hid, hst⟩ :=
      handler_success data env uuid now (hv.mpr hok) hdb
    rw [hsns] at heq
    exact ⟨item, by simpa using heq, hid, hst⟩
  · constructor
    · intro h
      rcases Bool.eq_false_or_eq_true (ContactHandler.claimRejectsAmended data)
        with hA | hA
      · exact hA
      · rw [hv.mpr hA] at h; cases h
    · intro hA
      rcases Bool.eq_false_or_eq_true (ContactHandler.validate_form_data data).valid
        with h | h
      · rw [hv.mp h] at hA; cases hA
      · exact h

/-- Witness for C3: the fully valid submission is stored and notified with
a 200 response carrying its submission id. -/
theorem claim_C3_witness :
    ∃ item, ContactHandler.lambda_handler (.ok c3Valid) c3Env
        "sub-2" "2024-02-02T00:00:00" =
        ({ statusCode := 200, body := .success "sub-2" "2024-02-02T00:00:00" },
         [.dynamoPutItem ContactHandler.CONTACT_TABLE item,
          .snsPublish ContactHandler.SNS_TOPIC_ARN
            ("New Contact Form Submission - " ++ c3Valid.subject.getD "")]) ∧
      item.submission_id = "sub-2" ∧ item.status = "new" :=
  (claim_C3 c3Valid c3Env "sub-2" "2024-02-02T00:00:00" rfl rfl).2.1 (by decide)

/-- C10: on a submission that passes validation, with the DynamoDB put
succeeding and the SNS publish raising, the handler still returns 200 with
the submission id and the stored item remains the only effect — the
notification failure is swallowed. -/
theorem claim_C10 :
    ∀ (data : ContactHandler.FormData) (env : ContactHandler.Env) (uuid now : String),
    (ContactHandler.validate_form_data data).valid = true →
    env.dbOk = true → env.snsOk = false →
    ∃ item, ContactHandler.lambda_handler (.ok data) env uuid now =
        ({ statusCode := 200, body := .success uuid now },
         [.dynamoPutItem ContactHandler.CONTACT_TABLE item]) ∧
      item.submission_id = uuid ∧ item.status = "new" := by
  intro data env uuid now hvalid hdb hsns
  obtain ⟨item, heq, hid, hst⟩ := handler_success data env uuid now hvalid hdb
  rw [hsns] at heq
  exact ⟨item, by simpa using heq, hid, hst⟩

/-- Witness for C10: the concrete valid submission in the environment with
a failing SNS publish yields 200 and exactly the one stored item. -/
theorem claim_C10_witness :
    ∃ item, ContactHandler.lambda_handler (.ok c10Body) c10Env
        "sub-3" "2024-03-03T00:00:00" =
        ({ statusCode := 200, body := .success "sub-3" "2024-03-03T00:00:00" },
         [.dynamoPutItem ContactHandler.CONTACT_TABLE item]) ∧
      item.submission_id = "sub-3" ∧ item.status = "new" :=
  claim_C10 c10Body c10Env "sub-3" "2024-03-03T00:00:00" (by decide) rfl rfl

/-- Unfolding of process_record: validate the stamped record, then enrich,
then optionally attach the ML prediction. -/
lemma process_record_eq (data : DataProcessor.Data) (env : DataProcessor.Env) :
    DataProcessor.process_record data env =
      (match DataProcessor.validate_data
          { data with processed_at := some env.nowIso } env.isoOk with
       | .error e => (.error e, [])
       | .ok _ =>
         if ["purchase", "view", "click"].contains
             ((DataProcessor.enrichBase data env).event_type.getD "") then
           (.ok { DataProcessor.enrichBase data env with
                  ml_prediction := some (DataProcessor.get_ml_prediction
                    (DataProcessor.extract_ml_features
                      (DataProcessor.enrichBase data env)) env).1 },
            (DataProcessor.get_ml_prediction
              (DataProcessor.extract_ml_features
                (DataProcessor.enrichBase data env)) env).2)
         else (.ok (DataProcessor.enrichBase data env), [])) := rfl

/-- C4: per Kinesis record the steps run in the order decode, validate,
enrich, store: a record whose decode or validation fails produces no
Redshift and no S3 effect; a record whose processing succeeds stores — in
Redshift and then S3 — a record that passed validation and carries the
enrichment fields (and an ML prediction for purchase/view/click events),
with only SageMaker invocations preceding the stores. -/
theorem claim_C4 :
    ∀ (rec : DataProcessor.KinesisRecord) (env : DataProcessor.Env),
    (∀ e, rec.decoded = .error e →
        DataProcessor.processOne rec env = (.error e, [])) ∧
    (∀ data err, rec.decoded = .ok data →
        DataProcessor.validate_data { data with processed_at := some env.nowIso }
            env.isoOk = .error err →
        DataProcessor.processOne rec env = (.error err, [])) ∧
    (∀ data d effs, rec.decoded = .ok data →
        DataProcessor.process_record data env = (.ok d, effs) →
        env.redshiftOk = true → env.s3Ok = true →
        DataProcessor.processOne rec env =
            (.ok (), effs ++ [.redshiftInsert d, .s3Put d]) ∧
        (∀ e ∈ effs, ∃ f, e = .sagemakerInvoke f) ∧
        DataProcessor.validate_data { data with processed_at := some env.nowIso }
            env.isoOk = .ok () ∧
        d.session_duration = some (DataProcessor.calculate_session_duration
          { data with processed_at := some env.nowIso }) ∧
        d.user_segment = some (DataProcessor.determine_user_segment
          { data with
            processed_at := some env.nowIso,
            session_duration := some (DataProcessor.calculate_session_duration
              { data with processed_at := some env.nowIso }) }) ∧
        (["purchase", "view", "click"].contains (data.event_type.getD "") = true →
          d.ml_prediction.isSome = true)) := by
  intro rec env
  obtain ⟨seq, dec⟩ := rec
  refine ⟨?_, ?_, ?_⟩
  · intro e h
    simp only at h
    simp [DataProcessor.processOne, h]
  · intro data err hdec hval
    simp only at hdec
    simp [DataProcessor.processOne, hdec, DataProcessor.process_record, hval]
  · intro data d effs hdec hpr hr hs
    simp only at hdec
    have hstep :
        DataProcessor.processOne ⟨seq, dec⟩ env =
          (.ok (), effs ++ [.redshiftInsert d] ++ [.s3Put d]) := by
      simp [DataProcessor.processOne, hdec, hpr,
            DataProcessor.store_in_redshift, DataProcessor.store_in_s3, hr, hs]
    rw [process_record_eq] at hpr
    cases hv : DataProcessor.validate_data
        { data with processed_at := some env.nowIso } env.isoOk with
    | error e =>
      rw [hv] at hpr
      simp at hpr
    | ok u =>
      rw [hv] at hpr
      by_cases hc : ["purchase", "view", "click"].contains
          ((DataProcessor.enrichBase data env).event_type.getD "") = true
      · rw [if_pos hc] at hpr
        obtain ⟨hd, he⟩ :
            ({ DataProcessor.enrichBase data env with
               ml_prediction := some (DataProcessor.get_ml_prediction
                 (DataProcessor.extract_ml_features
                   (DataProcessor.enrichBase data env)) env).1 } = d) ∧
            ((DataProcessor.get_ml_prediction
                (DataProcessor.extract_ml_features
                  (DataProcessor.enrichBase data env)) env).2 = effs) := by
          simpa using hpr
        subst hd
        subst he
        refine ⟨?_, ?_, ?_, ?_, ?_, ?_⟩
        · rw [hstep]; simp
        · intro e he'
          by_cases hm : env.mlOk = true
          · simp [DataProcessor.get_ml_prediction, hm] at he'
            exact ⟨_, he'⟩
          · simp [DataProcessor.get_ml_prediction, hm] at he'
        · rfl
        · rfl
        · rfl
        · intro _; rfl
      · rw [if_neg hc] at hpr
        obtain ⟨hd, he⟩ :
            (DataProcessor.enrichBase data env = d) ∧ (([] : List DataProcessor.Effect) = effs) := by
          simpa using hpr
        subst hd
        subst he
        refine ⟨?_, ?_, ?_, ?_, ?_, ?_⟩
        · rw [hstep]; simp
        · intro e he'; simp at he'
        · rfl
        · rfl
        · rfl
        · intro hcc; exact absurd hcc hc

/-- Witness for C4: the unknown-event record fails validation and produces
no store effect; the click record is enriched and stored in Redshift and
S3 after one SageMaker invocation. -/
theorem claim_C4_witness :
    DataProcessor.processOne c4BadRec c4Env =
      (.error (.valueError "Invalid event_type: browse"), []) ∧
    DataProcessor.processOne c4GoodRec c4Env =
      (.ok (), [.sagemakerInvoke [42, 10, 0, 0],
                .redshiftInsert c4Stored, .s3Put c4Stored]) := by
  constructor
  · exact (claim_C4 c4BadRec c4Env).2.1 _
      (.valueError "Invalid event_type: browse") rfl rfl
  · have h := ((claim_C4 c4GoodRec c4Env).2.2 _ c4Stored
      [.sagemakerInvoke [42, 10, 0, 0]] rfl rfl rfl rfl).1
    simpa using h

/-- A boolean filter and its complement partition the length of a list. -/
lemma filter_partition_length {α : Type} (p : α → Bool) :
    ∀ l : List α, (l.filter p).length + (l.filter (fun a => !p a)).length = l.length := by
  intro l
  induction l with
  | nil => simp
  | cons a l ih =>
    cases hp : p a <;> simp [List.filter_cons, hp] <;> omega

/-- The record loop returns exactly the sequence numbers of the succeeding
records and of the failing records, in order. -/
lemma runRecords_spec (env : DataProcessor.Env) :
    ∀ rs : List DataProcessor.KinesisRecord,
      (DataProcessor.runRecords env rs).1 =
        (rs.filter (DataProcessor.succeeds env)).map (fun r => r.sequenceNumber) ∧
      (DataProcessor.runRecords env rs).2.1 =
        (rs.filter (fun r => !DataProcessor.succeeds env r)).map
          (fun r => r.sequenceNumber) := by
  intro rs
  induction rs with
  | nil => simp [DataProcessor.runRecords]
  | cons r rs ih =>
    cases hp : (DataProcessor.processOne r env).1 with
    | ok u =>
      have hs : DataProcessor.succeeds env r = true := by
        simp [DataProcessor.succeeds, hp]
      simp [DataProcessor.runRecords, hp, hs, List.filter_cons, ih.1, ih.2]
    | error e =>
      have hs : DataProcessor.succeeds env r = false := by
        simp [DataProcessor.succeeds, hp]
      simp [DataProcessor.runRecords, hp, hs, List.filter_cons, ih.1, ih.2]

/-- C7: for a batch whose outer event decodes, a record failure is recorded
and does not stop the loop: the handler returns statusCode 200, the
processed and failed lists are exactly the sequence numbers of the
succeeding and failing records, and their counts sum to the number of
input records. -/
theorem claim_C7 :
    ∀ (records : List DataProcessor.KinesisRecord) (env : DataProcessor.Env),
    (DataProcessor.lambda_handler records env).1.statusCode = 200 ∧
    (DataProcessor.lambda_handler records env).1.body.processed_records =
      (records.filter (DataProcessor.succeeds env)).map (fun r => r.sequenceNumber) ∧
    (DataProcessor.lambda_handler records env).1.body.failed_records =
      (records.filter (fun r => !DataProcessor.succeeds env r)).map
        (fun r => r.sequenceNumber) ∧
    (DataProcessor.lambda_handler records env).1.body.processed +
        (DataProcessor.lambda_handler records env).1.body.failed =
      records.length := by
  intro records env
  have h := runRecords_spec env records
  rcases hr : DataProcessor.runRecords env records with ⟨p, f, effs⟩
  rw [hr] at h
  simp only at h
  refine ⟨?_, ?_, ?_, ?_⟩ <;> simp only [DataProcessor.lambda_handler, hr]
  · exact h.1
  · exact h.2
  · have hp : p.length = (records.filter (DataProcessor.succeeds env)).length := by
      rw [h.1]; simp
    have hf : f.length =
        (records.filter (fun r => !DataProcessor.succeeds env r)).length := by
      rw [h.2]; simp
    simp only [hp, hf]
    exact filter_partition_length (DataProcessor.succeeds env) records

/-- The letter-grade if-chain realises exactly the threshold intervals
90/80/70/60. -/
lemma gradeOf_spec (s : ℚ) :
    ((if s ≥ 90 then "A" else if s ≥ 80 then "B" else if s ≥ 70 then "C"
        else if s ≥ 60 then "D" else "F") = "A" ↔ 90 ≤ s) ∧
    ((if s ≥ 90 then "A" else if s ≥ 80 then "B" else if s ≥ 70 then "C"
        else if s ≥ 60 then "D" else "F") = "B" ↔ 80 ≤ s ∧ s < 90) ∧
    ((if s ≥ 90 then "A" else if s ≥ 80 then "B" else if s ≥ 70 then "C"
        else if s ≥ 60 then "D" else "F") = "C" ↔ 70 ≤ s ∧ s < 80) ∧
    ((if s ≥ 90 then "A" else if s ≥ 80 then "B" else if s ≥ 70 then "C"
        else if s ≥ 60 then "D" else "F") = "D" ↔ 60 ≤ s ∧ s < 70) ∧
    ((if s ≥ 90 then "A" else if s ≥ 80 then "B" else if s ≥ 70 then "C"
        else if s ≥ 60 then "D" else "F") = "F" ↔ s < 60) := by
  by_cases h1 : 90 ≤ s
  · have e : (if s ≥ 90 then "A" else if s ≥ 80 then "B" else if s ≥ 70 then "C"
        else if s ≥ 60 then "D" else "F") = "A" := if_pos h1
    rw [e]
    exact ⟨iff_of_true rfl h1,
      iff_of_false (by decide)
        (fun h => absurd (lt_of_le_of_lt h1 h.2) (by norm_num)),
      iff_of_false (by decide)
        (fun h => absurd (lt_of_le_of_lt h1 h.2) (by norm_num)),
      iff_of_false (by decide)
        (fun h => absurd (lt_of_le_of_lt h1 h.2) (by norm_num)),
      iff_of_false (by decide)
        (fun h => absurd (lt_of_le_of_lt h1 h) (by norm_num))⟩
  · by_cases h2 : 80 ≤ s
    · have e : (if s ≥ 90 then "A" else if s ≥ 80 then "B" else if s ≥ 70 then "C"
          else if s ≥ 60 then "D" else "F") = "B" := by
        rw [if_neg h1, if_pos h2]
      rw [e]
      exact ⟨iff_of_false (by decide) h1,
        iff_of_true rfl ⟨h2, not_le.mp h1⟩,
        iff_of_false (by decide)
          (fun h => absurd (lt_of_le_of_lt h2 h.2) (by norm_num)),
        iff_of_false (by decide)
          (fun h => absurd (lt_of_le_of_lt h2 h.2) (by norm_num)),
        iff_of_false (by decide)
          (fun h => absurd (lt_of_le_of_lt h2 h) (by norm_num))⟩
    · by_cases h3 : 70 ≤ s
      · have e : (if s ≥ 90 then "A" else if s ≥ 80 then "B" else if s ≥ 70 then "C"
            else if s ≥ 60 then "D" else "F") = "C" := by
          rw [if_neg h1, if_neg h2, if_pos h3]
        rw [e]
        exact ⟨iff_of_false (by decide) h1,
          iff_of_false (by decide) (fun h => h2 h.1),
          iff_of_true rfl ⟨h3, not_le.mp h2⟩,
          iff_of_false (by decide)
            (fun h => absurd (lt_of_le_of_lt h3 h.2) (by norm_num)),
          iff_of_false (by decide)
            (fun h => absurd (lt_of_le_of_lt h3 h) (by norm_num))⟩
      · by_cases h4 : 60 ≤ s
        · have e : (if s ≥ 90 then "A" else if s ≥ 80 then "B" else if s ≥ 70 then "C"
              else if s ≥ 60 then "D" else "F") = "D" := by
            rw [if_neg h1, if_neg h2, if_neg h3, if_pos h4]
          rw [e]
          exact ⟨iff_of_false (by decide) h1,
            iff_of_false (by decide) (fun h => h2 h.1),
            iff_of_false (by decide) (fun h => h3 h.1),
            iff_of_true rfl ⟨h4, not_le.mp h3⟩,
            iff_of_false (by decide)
              (fun h => absurd (lt_of_le_of_lt h4 h) (by norm_num))⟩
        · have e : (if s ≥ 90 then "A" else if s ≥ 80 then "B" else if s ≥ 70 then "C"
              else if s ≥ 60 then "D" else "F") = "F" := by
            rw [if_neg h1, if_neg h2, if_neg h3, if_neg h4]
          rw [e]
          exact ⟨iff_of_false (by decide) h1,
            iff_of_false (by decide) (fun h => h2 h.1),
            iff_of_false (by decide) (fun h => h3 h.1),
            iff_of_false (by decide) (fun h => h4 h.1),
            iff_of_true rfl (not_le.mp h4)⟩

/-- C9: analyze_performance_results scores 100 per PASS, 50 per FAIL and 0
otherwise over the components carrying a status, averages them (0 when no
component has a status), and grades by the 90/80/70/60 thresholds; the
load test aggregates its 50 latencies into mean, max and min and reports
PASS iff the mean is below 500 ms. -/
theorem claim_C9 :
    (∀ results : List (String × PerformanceTester.ComponentResult),
      (PerformanceTester.analyze_performance_results results).overall_score =
        (if (results.filterMap
              (fun p => PerformanceTester.componentScore p.2)).isEmpty
         then 0
         else (results.filterMap
                (fun p => PerformanceTester.componentScore p.2)).sum /
           ((results.filterMap
              (fun p => PerformanceTester.componentScore p.2)).length : ℚ)) ∧
      ((PerformanceTester.analyze_performance_results results).grade = "A" ↔
        90 ≤ (PerformanceTester.analyze_performance_results results).overall_score) ∧
      ((PerformanceTester.analyze_performance_results results).grade = "B" ↔
        80 ≤ (PerformanceTester.analyze_performance_results results).overall_score ∧
        (PerformanceTester.analyze_performance_results results).overall_score < 90) ∧
      ((PerformanceTester.analyze_performance_results results).grade = "C" ↔
        70 ≤ (PerformanceTester.analyze_performance_results results).overall_score ∧
        (PerformanceTester.analyze_performance_results results).overall_score < 80) ∧
      ((PerformanceTester.analyze_performance_results results).grade = "D" ↔
        60 ≤ (PerformanceTester.analyze_performance_results results).overall_score ∧
        (PerformanceTester.analyze_performance_results results).overall_score < 70) ∧
      ((PerformanceTester.analyze_performance_results results).grade = "F" ↔
        (PerformanceTester.analyze_performance_results results).overall_score < 60)) ∧
    (∀ latencies : List ℚ, latencies.length = 50 →
      (PerformanceTester.run_load_tests latencies).concurrent_requests = 50 ∧
      (PerformanceTester.run_load_tests latencies).average_latency_ms =
        latencies.sum / 50 ∧
      (PerformanceTester.run_load_tests latencies).max_latency_ms =
        PerformanceTester.pyMax latencies ∧
      (PerformanceTester.run_load_tests latencies).min_latency_ms =
        PerformanceTester.pyMin latencies ∧
      ((PerformanceTester.run_load_tests latencies).status = "PASS" ↔
        latencies.sum / 50 < 500)) := by
  constructor
  · intro results
    have hg := gradeOf_spec
      ((PerformanceTester.analyze_performance_results results).overall_score)
    exact ⟨rfl, hg.1, hg.2.1, hg.2.2.1, hg.2.2.2.1, hg.2.2.2.2⟩
  · intro latencies h50
    have hm : PerformanceTester.pyMean latencies = latencies.sum / 50 := by
      unfold PerformanceTester.pyMean
      rw [h50]
      norm_num
    refine ⟨rfl, hm, rfl, rfl, ?_⟩
    unfold PerformanceTester.run_load_tests
    rw [hm]
    by_cases h : latencies.sum / 50 < 500
    · rw [if_pos h]
      exact iff_of_true rfl h
    · rw [if_neg h]
      constructor
      · intro hq
        exact absurd (show ("FAIL" : String) = "PASS" from hq) (by decide)
      · intro hq
        exact absurd hq h

/-- Witness for C9: fifty latencies of 100 ms average to 100 ms, so the
load test reports PASS. -/
theorem claim_C9_witness :
    (PerformanceTester.run_load_tests c9Latencies).status = "PASS" := by
  have h := claim_C9.2 c9Latencies (by simp [c9Latencies])
  refine h.2.2.2.2.mpr ?_
  have hs : c9Latencies.sum = 5000 := by
    simp [c9Latencies, List.sum_replicate]
    norm_num
  rw [hs]
  norm_num
